import Mathlib

/-!
Verification of the LBANN layer headers
`include/lbann/layers/loss/cross_entropy.hpp` and
`include/lbann/layers/learning/embedding.hpp`.

The development shallowly embeds the two layer classes: enumerations for
device and data layout, records for layer and weights state, and Lean
functions for the member functions the claims are about.  Machine integer
conversions (`static_cast<int>`, `static_cast<El::Int>`) are modelled with
explicit wraparound.  Scalar entries of matrices are modelled by `ℚ` with
the logarithm abstracted as a function parameter, so that every definition
stays executable.
-/

namespace lbann

/-- `El::Device`: the device template parameter of a layer. -/
inductive Device where
  | CPU
  | GPU
deriving DecidableEq, Repr

/-- `lbann::data_layout`: the layout template parameter of a layer. -/
inductive DataLayout where
  | DATA_PARALLEL
  | MODEL_PARALLEL
deriving DecidableEq, Repr

/-- `El::Dist`: the Elemental matrix distribution tags. -/
inductive Dist where
  | MC
  | MD
  | MR
  | VC
  | VR
  | STAR
  | CIRC
deriving DecidableEq, Repr

/-- `El::DistData`: the distribution descriptor of a distributed matrix.
Fields beyond the column and row distribution (block sizes, alignments,
root) are carried along unchanged by the code under study. -/
structure DistData where
  colDist : Dist
  rowDist : Dist
  blockHeight : Nat
  blockWidth : Nat
  colAlign : Nat
  rowAlign : Nat
  root : Int
deriving DecidableEq, Repr

/-- `static_cast<int>` applied to a `size_t` value: reduce modulo `2^32`
into the signed 32-bit range. -/
def toInt32 (n : Nat) : Int :=
  ((n : Int) + 2 ^ 31) % 2 ^ 32 - 2 ^ 31

/-- `static_cast<El::Int>` applied to a `size_t` value: reduce modulo
`2^64` into the signed 64-bit range (`El::Int` is a 64-bit signed int). -/
def toInt64 (n : Nat) : Int :=
  ((n : Int) + 2 ^ 63) % 2 ^ 64 - 2 ^ 63

namespace cross_entropy_layer

/-- Modelled from the spec: the forward computation of
`cross_entropy_layer` (`fp_compute`, whose numeric kernel
`local_fp_compute` lives in `cross_entropy.cpp`, not among the excerpted
files).  The header documents the computed value as
`CE(y, yhat) = - sum_i yhat_i * log y_i`; the kernel accumulates one
contribution `- yhat_i * log y_i` per entry of the paired input tensors,
starting from zero.  The logarithm is abstracted as the parameter `log`
and scalars are modelled by `ℚ`. -/
def fp_compute (log : ℚ → ℚ) (y yhat : List ℚ) : ℚ :=
  (y.zip yhat).foldl (fun acc p => acc - p.2 * log p.1) 0

/-- The cross entropy formula as stated in the header documentation and
the spec: `CE(y, yhat) = - sum_i yhat_i * log y_i`, with the sum ranging
over the paired entries. -/
def crossEntropySpec (log : ℚ → ℚ) (y yhat : List ℚ) : ℚ :=
  - (((y.zip yhat).map (fun p => p.2 * log p.1)).sum)

end cross_entropy_layer

/-- `lbann::normal_initializer<T>(mean, stddev)`: draws weight values from
a normal distribution with the given mean and standard deviation. -/
structure NormalInitializer where
  mean : ℚ
  standard_deviation : ℚ
deriving DecidableEq, Repr

/-- `lbann::data_type_weights<T>`: a weights object.  The matrix height
and width dimension lists are those passed to `weights::set_dims`; the
entries of the materialized matrix (accessed as `values row col`) are
modelled as a total function, since `weights::setup` fills them from the
initializer outside the excerpted code. -/
structure WeightsObj where
  name : String
  init : Option NormalInitializer
  hasOptimizer : Bool
  heightDims : List Nat
  widthDims : List Nat
  dist : Option DistData
  values : Int → Int → ℚ

/-- The state of an `embedding_layer` relevant to the excerpted member
functions. -/
structure EmbeddingLayer where
  num_embeddings : Nat
  embedding_dim : Nat
  padding_idx : Int
  name : String
  weights : List WeightsObj
  prevActivationsDist : DistData

/-- The state of the owning `model` relevant to `setup_data`: the list of
weights objects registered with the model. -/
structure ModelState where
  weights : List WeightsObj

namespace embedding_layer

/-- `embedding_layer::embedding_layer(num_embeddings, embedding_dim,
padding_idx)`: stores the three configuration values; the layer starts
with no weights.  `name` and `prevActivationsDist` stand for state
managed by the base class. -/
def ctor (num_embeddings embedding_dim : Nat) (padding_idx : Int)
    (name : String) (prevDist : DistData) : EmbeddingLayer :=
  { num_embeddings := num_embeddings
    embedding_dim := embedding_dim
    padding_idx := padding_idx
    name := name
    weights := []
    prevActivationsDist := prevDist }

/-- `embedding_layer::embedding_layer()` (the serialization constructor):
delegates to the public constructor with arguments `(0, 0, 0)`. -/
def default_ctor (name : String) (prevDist : DistData) : EmbeddingLayer :=
  ctor 0 0 0 name prevDist

/-- `embedding_layer::embedding_layer(const embedding_layer&)`: the base
subobject is copy-constructed and the three configuration members are
copied from `other`. -/
def copy_ctor (other : EmbeddingLayer) : EmbeddingLayer :=
  { num_embeddings := other.num_embeddings
    embedding_dim := other.embedding_dim
    padding_idx := other.padding_idx
    name := other.name
    weights := other.weights
    prevActivationsDist := other.prevActivationsDist }

/-- `embedding_layer::operator=`: base assignment followed by member-wise
assignment of the three configuration members. -/
def assign (this other : EmbeddingLayer) : EmbeddingLayer :=
  { this with
    num_embeddings := other.num_embeddings
    embedding_dim := other.embedding_dim
    padding_idx := other.padding_idx
    name := other.name
    weights := other.weights
    prevActivationsDist := other.prevActivationsDist }

/-- `embedding_layer::copy()`: returns `new embedding_layer(*this)`. -/
def copy (this : EmbeddingLayer) : EmbeddingLayer :=
  copy_ctor this

/-- `embedding_layer::get_type()`. -/
def get_type : String := "embedding"

/-- `embedding_layer::get_data_layout()`: returns the `Layout` template
parameter. -/
def get_data_layout (Layout : DataLayout) : DataLayout := Layout

/-- `embedding_layer::get_device_allocation()`: returns the `Device`
template parameter. -/
def get_device_allocation (Device : lbann.Device) : lbann.Device := Device

/-- `embedding_layer::setup_dims()`: takes the input dimensions, appends
`static_cast<int>(m_embedding_dim)`, and sets the result as the output
dimensions. -/
def setup_dims (l : EmbeddingLayer) (input_dims : List Int) : List Int :=
  input_dims ++ [toInt32 l.embedding_dim]

/-- The default weights object built by `setup_data` when the layer has
none: normal initializer with mean zero and standard deviation one, an
optimizer created by the model, and name `get_name() + "_weights"`. -/
def default_weights (l : EmbeddingLayer) : WeightsObj :=
  { name := l.name ++ "_weights"
    init := some { mean := 0, standard_deviation := 1 }
    hasOptimizer := true
    heightDims := []
    widthDims := []
    dist := none
    values := fun _ _ => 0 }

/-- The first stage of `embedding_layer::setup_data`: if the layer has no
weights, construct the default weights object and register it with the
layer (`add_weights`) and with the model (`m_model->add_weights`). -/
def construct_default_weights (l : EmbeddingLayer) (m : ModelState) :
    EmbeddingLayer × ModelState :=
  if l.weights.isEmpty then
    ({ l with weights := l.weights ++ [default_weights l] },
     { m with weights := m.weights ++ [default_weights l] })
  else
    (l, m)

/-- `El::View` of column `c` followed by `El::Zero`: entry `(row, col)`
of the result is zero in column `c` and unchanged elsewhere. -/
def zeroColumn (v : Int → Int → ℚ) (c : Int) : Int → Int → ℚ :=
  fun row col => if col = c then 0 else v row col

/-- The padding-index zeroing step of `embedding_layer::setup_data`: if
`0 <= m_padding_idx && m_padding_idx < static_cast<El::Int>(m_embedding_dim)`
then the weights column at `m_padding_idx` is viewed and zeroed, otherwise
the values are left untouched.  Note the guard compares against
`m_embedding_dim`, not against `m_num_embeddings`. -/
def zero_padding_step (embedding_dim : Nat) (padding_idx : Int)
    (v : Int → Int → ℚ) : Int → Int → ℚ :=
  if 0 ≤ padding_idx ∧ padding_idx < toInt64 embedding_dim then
    zeroColumn v padding_idx
  else
    v

/-- `embedding_layer::setup_data`: construct default weights if needed,
raise `LBANN_ERROR` if the number of weights differs from one, then
initialize the dictionary: set the weights matrix dimensions to
`{m_embedding_dim} x {m_num_embeddings}`, override the column and row
distribution of the previous-activations distribution with `El::STAR`,
set up the weights, and zero the padding column if the guard holds. -/
def setup_data (l : EmbeddingLayer) (m : ModelState) :
    Except String (EmbeddingLayer × ModelState) :=
  let s := construct_default_weights l m
  let l1 := s.1
  let m1 := s.2
  if l1.weights.length ≠ 1 then
    Except.error ("attempted to setup " ++ get_type ++ " layer \x22" ++
      l1.name ++ "\x22 with an invalid number of weights (expected 1, found " ++
      toString l1.weights.length ++ ")")
  else
    let emb0 := l1.weights.headD (default_weights l1)
    let matrix_dist : DistData :=
      { l1.prevActivationsDist with colDist := Dist.STAR, rowDist := Dist.STAR }
    let emb1 : WeightsObj :=
      { emb0 with
        heightDims := [l1.embedding_dim]
        widthDims := [l1.num_embeddings]
        dist := some matrix_dist }
    let emb2 : WeightsObj :=
      { emb1 with
        values := zero_padding_step l1.embedding_dim l1.padding_idx emb1.values }
    Except.ok ({ l1 with weights := [emb2] }, m1)

end embedding_layer

/-- The state of a `cross_entropy_layer` relevant to the excerpted member
functions: the `m_expected_num_parent_layers` field inherited from
`Layer`, the `m_use_labels` flag, and the workspace matrix owned through
a `unique_ptr` (null modelled by `none`, the matrix by its entries). -/
structure CELayer where
  expected_num_parent_layers : Int
  use_labels : Bool
  workspace : Option (Int → Int → ℚ)

namespace cross_entropy_layer

/-- `AbstractDistMatrix::Copy()`: allocates a new matrix holding the same
entries. -/
def matrixCopy (mat : Int → Int → ℚ) : Int → Int → ℚ :=
  fun row col => mat row col

/-- `cross_entropy_layer::cross_entropy_layer(lbann_comm*, bool)`: the
base class is initialized (the `comm` pointer is stored there and plays
no further role here), `m_use_labels` is set, and the constructor body
sets `m_expected_num_parent_layers` to 2.  The `unique_ptr` workspace is
default-initialized to null. -/
def ctor (use_labels : Bool) : CELayer :=
  { expected_num_parent_layers := 2
    use_labels := use_labels
    workspace := none }

/-- `cross_entropy_layer::cross_entropy_layer()` (the serialization
constructor): delegates to the public constructor with arguments
`(nullptr, false)`. -/
def default_ctor : CELayer :=
  ctor false

/-- `cross_entropy_layer::cross_entropy_layer(const cross_entropy_layer&)`:
the base subobject is copy-constructed (preserving
`m_expected_num_parent_layers`), `m_use_labels` is copied, and the
workspace is reset to a copy of the other workspace when present and to
null otherwise. -/
def copy_ctor (other : CELayer) : CELayer :=
  { expected_num_parent_layers := other.expected_num_parent_layers
    use_labels := other.use_labels
    workspace := other.workspace.map matrixCopy }

/-- `cross_entropy_layer::operator=`: base assignment, then `m_use_labels`
and the workspace are assigned exactly as in the copy constructor. -/
def assign (this other : CELayer) : CELayer :=
  { this with
    expected_num_parent_layers := other.expected_num_parent_layers
    use_labels := other.use_labels
    workspace := other.workspace.map matrixCopy }

/-- `cross_entropy_layer::copy()`: returns `new cross_entropy_layer(*this)`. -/
def copy (this : CELayer) : CELayer :=
  copy_ctor this

/-- The set of `cross_entropy_layer` objects producible by the three
constructors: the public constructor, the serialization (default)
constructor, and the copy constructor applied to a constructed layer. -/
inductive Constructed : CELayer → Prop where
  | public_ctor (use_labels : Bool) : Constructed (ctor use_labels)
  | serialization_ctor : Constructed default_ctor
  | copy_of (other : CELayer) : Constructed other → Constructed (copy_ctor other)

/-- `cross_entropy_layer::get_type()`. -/
def get_type : String := "cross entropy"

/-- `cross_entropy_layer::get_data_layout()`: returns the `T_layout`
template parameter. -/
def get_data_layout (T_layout : DataLayout) : DataLayout := T_layout

/-- `cross_entropy_layer::get_device_allocation()`: returns the `Dev`
template parameter. -/
def get_device_allocation (Dev : Device) : Device := Dev

/-- `cross_entropy_layer::is_distconv_supported()`: returns
`Dev == El::Device::GPU && T_layout == data_layout::DATA_PARALLEL`. -/
def is_distconv_supported (Dev : Device) (T_layout : DataLayout) : Bool :=
  Dev == Device.GPU && T_layout == DataLayout.DATA_PARALLEL

/-- `cross_entropy_layer::fp_compute_distconv()`: `assert_always` that
distconv is enabled, then delegates the forward pass to the distconv
adapter (external).  An assertion failure is modelled as an error. -/
def fp_compute_distconv (distconv_enabled : Bool) : Except String Unit :=
  if distconv_enabled then
    Except.ok ()
  else
    Except.error "assert_always failed: distconv_enabled()"

/-- `cross_entropy_layer::bp_compute_distconv()`: `assert_always` that
distconv is enabled, then delegates the backward pass to the distconv
adapter (external).  An assertion failure is modelled as an error. -/
def bp_compute_distconv (distconv_enabled : Bool) : Except String Unit :=
  if distconv_enabled then
    Except.ok ()
  else
    Except.error "assert_always failed: distconv_enabled()"

end cross_entropy_layer

/-- A sample previous-activations distribution (element distribution
with column distribution `MC` and row distribution `MR`). -/
def exPrevDist : DistData :=
  { colDist := Dist.MC
    rowDist := Dist.MR
    blockHeight := 1
    blockWidth := 1
    colAlign := 0
    rowAlign := 0
    root := 0 }

/-- A sample embedding layer: 2 embeddings of dimension 3, no padding
index, no weights yet. -/
def exEmbLayer : EmbeddingLayer :=
  embedding_layer.ctor 2 3 (-1) "emb" exPrevDist

/-- A sample model with no registered weights. -/
def exModel : ModelState := { weights := [] }

/-- The weights object produced by running `setup_data` on the sample
layer and model. -/
def exWeightsAfter : WeightsObj :=
  { name := "emb" ++ "_weights"
    init := some { mean := 0, standard_deviation := 1 }
    hasOptimizer := true
    heightDims := [3]
    widthDims := [2]
    dist := some { exPrevDist with colDist := Dist.STAR, rowDist := Dist.STAR }
    values := embedding_layer.zero_padding_step 3 (-1) (fun _ _ => 0) }

/-- The sample layer state after `setup_data`. -/
def exEmbLayerAfter : EmbeddingLayer :=
  { exEmbLayer with weights := [exWeightsAfter] }

/-- The sample model state after `setup_data`. -/
def exModelAfter : ModelState :=
  { weights := [embedding_layer.default_weights exEmbLayer] }

end lbann

open lbann

/-- `static_cast<int>` is the identity on `size_t` values below `2^31`. -/
theorem toInt32_eq_of_lt (n : Nat) (h : n < 2 ^ 31) : toInt32 n = n := by
  have h' : (n : Int) < 2 ^ 31 := by exact_mod_cast h
  have h0 : (0 : Int) ≤ (n : Int) + 2 ^ 31 := by positivity
  have h1 : (n : Int) + 2 ^ 31 < 2 ^ 32 := by omega
  rw [toInt32, Int.emod_eq_of_lt h0 h1]
  ring

/-- `static_cast<El::Int>` is the identity on `size_t` values below `2^63`. -/
theorem toInt64_eq_of_lt (n : Nat) (h : n < 2 ^ 63) : toInt64 n = n := by
  have h' : (n : Int) < 2 ^ 63 := by exact_mod_cast h
  have h0 : (0 : Int) ≤ (n : Int) + 2 ^ 63 := by positivity
  have h1 : (n : Int) + 2 ^ 63 < 2 ^ 64 := by omega
  rw [toInt64, Int.emod_eq_of_lt h0 h1]
  ring

/-- Folding subtraction of `f` over a list starting from `a` yields `a`
minus the sum of the mapped list. -/
theorem foldl_sub_eq_sub_sum (f : ℚ × ℚ → ℚ) :
    ∀ (l : List (ℚ × ℚ)) (a : ℚ),
      l.foldl (fun acc p => acc - f p) a = a - (l.map f).sum
  | [], a => by simp
  | p :: l, a => by
    rw [List.foldl_cons, foldl_sub_eq_sub_sum f l (a - f p), List.map_cons,
      List.sum_cons]
    ring

/-- The zipped per-entry sum rewritten as an indexed sum over positions,
when the two lists have equal length. -/
theorem zip_map_sum_eq_range_sum (log : ℚ → ℚ) :
    ∀ (y yhat : List ℚ), y.length = yhat.length →
      ((y.zip yhat).map (fun p => p.2 * log p.1)).sum =
        ∑ i ∈ Finset.range y.length, yhat.getD i 0 * log (y.getD i 0)
  | [], [], _ => by simp
  | [], _ :: _, h => by simp at h
  | _ :: _, [], h => by simp at h
  | a :: y, b :: yhat, h => by
    have h' : y.length = yhat.length := by
      simpa using h
    rw [List.zip_cons_cons, List.map_cons, List.sum_cons,
      List.length_cons, Finset.sum_range_succ']
    simp only [List.getD_cons_succ, List.getD_cons_zero]
    rw [zip_map_sum_eq_range_sum log y yhat h']
    ring

/-- C1: for a predicted distribution `y` and a ground-truth distribution
`yhat` presented as the two inputs of a `cross_entropy_layer`, the forward
computation `fp_compute` produces the cross entropy
`CE(y, yhat) = - sum_i yhat_i * log y_i`. -/
theorem cross_entropy_fp_compute_is_cross_entropy (log : ℚ → ℚ)
    (y yhat : List ℚ) (h : y.length = yhat.length) :
    cross_entropy_layer.fp_compute log y yhat =
        cross_entropy_layer.crossEntropySpec log y yhat ∧
      cross_entropy_layer.fp_compute log y yhat =
        - ∑ i ∈ Finset.range y.length, yhat.getD i 0 * log (y.getD i 0) := by
  constructor
  · rw [cross_entropy_layer.fp_compute, cross_entropy_layer.crossEntropySpec,
      foldl_sub_eq_sub_sum]
    ring
  · rw [cross_entropy_layer.fp_compute, foldl_sub_eq_sub_sum,
      zip_map_sum_eq_range_sum log y yhat h]
    ring

/-- Witness for C1 at the concrete inputs `y = [2, 4]`, `yhat = [3, 5]`
with `log` instantiated by the identity function. -/
theorem cross_entropy_fp_compute_is_cross_entropy_witness :
    ([(2 : ℚ), 4].length = [(3 : ℚ), 5].length) ∧
      (cross_entropy_layer.fp_compute (fun x => x) [2, 4] [3, 5] =
          cross_entropy_layer.crossEntropySpec (fun x => x) [2, 4] [3, 5] ∧
        cross_entropy_layer.fp_compute (fun x => x) [2, 4] [3, 5] =
          - ∑ i ∈ Finset.range [(2 : ℚ), 4].length,
              [(3 : ℚ), 5].getD i 0 * (fun x => x) ([(2 : ℚ), 4].getD i 0)) :=
  ⟨rfl, cross_entropy_fp_compute_is_cross_entropy (fun x => x) [2, 4] [3, 5] rfl⟩

/-- C2: `embedding_layer::setup_dims` sets the output dimensions to the
input dimensions with `embedding_dim` appended as one extra trailing
dimension; in particular an input vector of length `sequence_length`
yields a `sequence_length x embedding_dim` output tensor (output
dimension list `[sequence_length, embedding_dim]`).  The hypothesis
records that `embedding_dim` fits in the `int` the code casts it to. -/
theorem embedding_setup_dims_appends_embedding_dim (l : EmbeddingLayer)
    (input_dims : List Int) (sequence_length : Int)
    (h : l.embedding_dim < 2 ^ 31) :
    embedding_layer.setup_dims l input_dims =
        input_dims ++ [(l.embedding_dim : Int)] ∧
      embedding_layer.setup_dims l [sequence_length] =
        [sequence_length, (l.embedding_dim : Int)] ∧
      (embedding_layer.setup_dims l input_dims).length =
        input_dims.length + 1 := by
  rw [embedding_layer.setup_dims, embedding_layer.setup_dims,
    toInt32_eq_of_lt l.embedding_dim h]
  refine ⟨rfl, rfl, ?_⟩
  simp

/-- Witness for C2 at a concrete layer with `embedding_dim = 7`. -/
theorem embedding_setup_dims_appends_embedding_dim_witness :
    ((embedding_layer.ctor 5 7 (-1) "emb"
        ⟨Dist.MC, Dist.MR, 1, 1, 0, 0, 0⟩).embedding_dim < 2 ^ 31) ∧
      (embedding_layer.setup_dims
          (embedding_layer.ctor 5 7 (-1) "emb"
            ⟨Dist.MC, Dist.MR, 1, 1, 0, 0, 0⟩) [4, 9] =
          [4, 9] ++
            [((embedding_layer.ctor 5 7 (-1) "emb"
                ⟨Dist.MC, Dist.MR, 1, 1, 0, 0, 0⟩).embedding_dim : Int)] ∧
        embedding_layer.setup_dims
          (embedding_layer.ctor 5 7 (-1) "emb"
            ⟨Dist.MC, Dist.MR, 1, 1, 0, 0, 0⟩) [4] =
          [4, ((embedding_layer.ctor 5 7 (-1) "emb"
                ⟨Dist.MC, Dist.MR, 1, 1, 0, 0, 0⟩).embedding_dim : Int)] ∧
        (embedding_layer.setup_dims
            (embedding_layer.ctor 5 7 (-1) "emb"
              ⟨Dist.MC, Dist.MR, 1, 1, 0, 0, 0⟩) [4, 9]).length =
          [(4 : Int), 9].length + 1) :=
  ⟨by decide,
    embedding_setup_dims_appends_embedding_dim _ [4, 9] 4 (by decide)⟩

/-- C4: during `embedding_layer::setup_data`, the weights column at
`padding_idx` is zeroed exactly when `0 <= padding_idx` and
`padding_idx < embedding_dim` (the guard compares against the embedding
dimension, not against `num_embeddings`, which does not even occur in the
step), and the zeroing touches no column other than `padding_idx`: entries
of the zeroed matrix in column `padding_idx` are `0` and entries in any
other column `col` are unchanged.  The first hypothesis records that
`embedding_dim` fits in the `El::Int` the code casts it to. -/
theorem embedding_zero_padding_guard_and_effect (embedding_dim : Nat)
    (padding_idx : Int) (v : Int → Int → ℚ) (row col : Int)
    (h : embedding_dim < 2 ^ 63) (hcol : col ≠ padding_idx) :
    (embedding_layer.zero_padding_step embedding_dim padding_idx v =
        if 0 ≤ padding_idx ∧ padding_idx < (embedding_dim : Int) then
          embedding_layer.zeroColumn v padding_idx
        else
          v) ∧
      embedding_layer.zeroColumn v padding_idx row padding_idx = 0 ∧
      embedding_layer.zeroColumn v padding_idx row col = v row col := by
  refine ⟨?_, ?_, ?_⟩
  · rw [embedding_layer.zero_padding_step,
      toInt64_eq_of_lt embedding_dim h]
  · simp [embedding_layer.zeroColumn]
  · simp [embedding_layer.zeroColumn, hcol]

/-- Witness for C4 with `embedding_dim = 3`, `padding_idx = 1`,
a constant matrix, `row = 0`, `col = 2`. -/
theorem embedding_zero_padding_guard_and_effect_witness :
    ((3 : Nat) < 2 ^ 63) ∧ ((2 : Int) ≠ 1) ∧
      ((embedding_layer.zero_padding_step 3 1 (fun _ _ => (5 : ℚ)) =
          if (0 : Int) ≤ 1 ∧ (1 : Int) < ((3 : Nat) : Int) then
            embedding_layer.zeroColumn (fun _ _ => (5 : ℚ)) 1
          else
            fun _ _ => (5 : ℚ)) ∧
        embedding_layer.zeroColumn (fun _ _ => (5 : ℚ)) 1 0 1 = 0 ∧
        embedding_layer.zeroColumn (fun _ _ => (5 : ℚ)) 1 0 2 = 5) :=
  ⟨by norm_num, by norm_num,
    embedding_zero_padding_guard_and_effect 3 1 (fun _ _ => (5 : ℚ)) 0 2
      (by norm_num) (by norm_num)⟩

/-- C6: every `cross_entropy_layer`, under every constructor (the public
constructor, the copy constructor, and the serialization default
constructor), expects exactly two parent layers: its
`m_expected_num_parent_layers` field is 2. -/
theorem cross_entropy_expects_two_parents (s : CELayer)
    (h : cross_entropy_layer.Constructed s) :
    s.expected_num_parent_layers = 2 := by
  induction h with
  | public_ctor use_labels => rfl
  | serialization_ctor => rfl
  | copy_of other _ ih => simpa [cross_entropy_layer.copy_ctor] using ih

/-- Witness for C6 at a copy of a publicly constructed layer. -/
theorem cross_entropy_expects_two_parents_witness :
    cross_entropy_layer.Constructed
        (cross_entropy_layer.copy_ctor (cross_entropy_layer.ctor true)) ∧
      (cross_entropy_layer.copy_ctor
          (cross_entropy_layer.ctor true)).expected_num_parent_layers = 2 :=
  ⟨.copy_of _ (.public_ctor true),
    cross_entropy_expects_two_parents _ (.copy_of _ (.public_ctor true))⟩

/-- C8: `copy()` and `operator=` preserve the full configuration: an
`embedding_layer` copy has the same `num_embeddings`, `embedding_dim` and
`padding_idx` as the original, and a `cross_entropy_layer` copy has the
same `use_labels` flag and a workspace that is a copy of the original one
when present (`Copy()` preserves matrix entries, so the copied workspace
equals the original) and null when the original workspace is null. -/
theorem layer_copy_preserves_configuration (le l0 : EmbeddingLayer)
    (lc c0 : CELayer) (mat : Int → Int → ℚ) :
    ((embedding_layer.copy le).num_embeddings = le.num_embeddings ∧
      (embedding_layer.copy le).embedding_dim = le.embedding_dim ∧
      (embedding_layer.copy le).padding_idx = le.padding_idx) ∧
    ((embedding_layer.assign l0 le).num_embeddings = le.num_embeddings ∧
      (embedding_layer.assign l0 le).embedding_dim = le.embedding_dim ∧
      (embedding_layer.assign l0 le).padding_idx = le.padding_idx) ∧
    ((cross_entropy_layer.copy lc).use_labels = lc.use_labels ∧
      (cross_entropy_layer.copy lc).workspace =
        lc.workspace.map cross_entropy_layer.matrixCopy) ∧
    ((cross_entropy_layer.assign c0 lc).use_labels = lc.use_labels ∧
      (cross_entropy_layer.assign c0 lc).workspace =
        lc.workspace.map cross_entropy_layer.matrixCopy) ∧
    cross_entropy_layer.matrixCopy mat = mat ∧
    lc.workspace.map cross_entropy_layer.matrixCopy = lc.workspace := by
  refine ⟨⟨rfl, rfl, rfl⟩, ⟨rfl, rfl, rfl⟩, ⟨rfl, rfl⟩, ⟨rfl, rfl⟩, rfl, ?_⟩
  cases lc.workspace <;> rfl

/-- C9: `cross_entropy_layer::is_distconv_supported` returns `true`
exactly when the device template parameter is GPU and the data layout is
DATA_PARALLEL; and `fp_compute_distconv` and `bp_compute_distconv` each
assert that distconv is enabled, so when invoked with distconv enabled
the assertion never fires and both succeed. -/
theorem cross_entropy_distconv_support (Dev : Device)
    (T_layout : DataLayout) (distconv_enabled : Bool) :
    (cross_entropy_layer.is_distconv_supported Dev T_layout = true ↔
      Dev = Device.GPU ∧ T_layout = DataLayout.DATA_PARALLEL) ∧
    (distconv_enabled = true →
      cross_entropy_layer.fp_compute_distconv distconv_enabled =
          Except.ok () ∧
        cross_entropy_layer.bp_compute_distconv distconv_enabled =
          Except.ok ()) := by
  constructor
  · cases Dev <;> cases T_layout <;>
      simp [cross_entropy_layer.is_distconv_supported]
  · rintro rfl
    exact ⟨rfl, rfl⟩

/-- Witness for C9 at GPU, DATA_PARALLEL, distconv enabled. -/
theorem cross_entropy_distconv_support_witness :
    ((cross_entropy_layer.is_distconv_supported Device.GPU
          DataLayout.DATA_PARALLEL = true ↔
        Device.GPU = Device.GPU ∧
          DataLayout.DATA_PARALLEL = DataLayout.DATA_PARALLEL) ∧
      (true = true →
        cross_entropy_layer.fp_compute_distconv true = Except.ok () ∧
          cross_entropy_layer.bp_compute_distconv true = Except.ok ())) :=
  cross_entropy_distconv_support Device.GPU DataLayout.DATA_PARALLEL true

/-- C10: both layers conform to the layer interface (their forward and
backward kernels are the member functions modelled in this file), and for
every instance `get_type` returns the constant string "cross entropy"
for a `cross_entropy_layer` and "embedding" for an `embedding_layer`,
while `get_data_layout` and `get_device_allocation` return exactly the
layout and device template parameters the layer was instantiated with. -/
theorem layer_interface_conformance (T_layout : DataLayout)
    (Dev : Device) :
    cross_entropy_layer.get_type = "cross entropy" ∧
    embedding_layer.get_type = "embedding" ∧
    cross_entropy_layer.get_data_layout T_layout = T_layout ∧
    cross_entropy_layer.get_device_allocation Dev = Dev ∧
    embedding_layer.get_data_layout T_layout = T_layout ∧
    embedding_layer.get_device_allocation Dev = Dev :=
  ⟨rfl, rfl, rfl, rfl, rfl, rfl⟩

/-- The default-weights construction stage of `embedding_layer::setup_data`
changes no field of the layer other than its weights list. -/
theorem construct_default_weights_preserves_config (l : EmbeddingLayer)
    (m : ModelState) :
    (embedding_layer.construct_default_weights l m).1.num_embeddings =
        l.num_embeddings ∧
      (embedding_layer.construct_default_weights l m).1.embedding_dim =
        l.embedding_dim ∧
      (embedding_layer.construct_default_weights l m).1.padding_idx =
        l.padding_idx ∧
      (embedding_layer.construct_default_weights l m).1.prevActivationsDist =
        l.prevActivationsDist := by
  rw [embedding_layer.construct_default_weights]
  split <;> exact ⟨rfl, rfl, rfl, rfl⟩

/-- C3: on every normal return of `embedding_layer::setup_data`, the
dimensions of the weights matrix (the lookup table of embedding vectors)
are set to `embedding_dim` rows (`set_dims` height list
`{m_embedding_dim}`) by `num_embeddings` columns (width list
`{m_num_embeddings}`), so each of the `num_embeddings` discrete indices
corresponds to one column vector of length `embedding_dim`. -/
theorem embedding_setup_data_weights_matrix_dims (l : EmbeddingLayer)
    (m : ModelState) (l2 : EmbeddingLayer) (m2 : ModelState)
    (h : embedding_layer.setup_data l m = Except.ok (l2, m2)) :
    l2.weights.map (fun w => (w.heightDims, w.widthDims)) =
      [([l.embedding_dim], [l.num_embeddings])] := by
  obtain ⟨hnum, hdim, -, -⟩ := construct_default_weights_preserves_config l m
  simp only [embedding_layer.setup_data] at h
  split at h
  · exact absurd h (by simp)
  · rw [Except.ok.injEq, Prod.mk.injEq] at h
    obtain ⟨h1, -⟩ := h
    subst h1
    simp [hnum, hdim]

/-- Witness for C3 on the sample layer and model. -/
theorem embedding_setup_data_weights_matrix_dims_witness :
    embedding_layer.setup_data exEmbLayer exModel =
        Except.ok (exEmbLayerAfter, exModelAfter) ∧
      exEmbLayerAfter.weights.map (fun w => (w.heightDims, w.widthDims)) =
        [([exEmbLayer.embedding_dim], [exEmbLayer.num_embeddings])] :=
  ⟨rfl,
    embedding_setup_data_weights_matrix_dims exEmbLayer exModel
      exEmbLayerAfter exModelAfter rfl⟩

/-- C7: on every normal return of `embedding_layer::setup_data`, the
weights matrix distribution is the previous-activations distribution
with both the column and the row distribution overridden to `El::STAR`
(fully replicated), whatever column and row distribution the previous
activations use. -/
theorem embedding_setup_data_star_distribution (l : EmbeddingLayer)
    (m : ModelState) (l2 : EmbeddingLayer) (m2 : ModelState)
    (h : embedding_layer.setup_data l m = Except.ok (l2, m2)) :
    l2.weights.map (fun w => w.dist) =
      [some { l.prevActivationsDist with
                colDist := Dist.STAR
                rowDist := Dist.STAR }] := by
  obtain ⟨-, -, -, hprev⟩ := construct_default_weights_preserves_config l m
  simp only [embedding_layer.setup_data] at h
  split at h
  · exact absurd h (by simp)
  · rw [Except.ok.injEq, Prod.mk.injEq] at h
    obtain ⟨h1, -⟩ := h
    subst h1
    simp [hprev]

/-- Witness for C7 on the sample layer and model. -/
theorem embedding_setup_data_star_distribution_witness :
    embedding_layer.setup_data exEmbLayer exModel =
        Except.ok (exEmbLayerAfter, exModelAfter) ∧
      exEmbLayerAfter.weights.map (fun w => w.dist) =
        [some { exEmbLayer.prevActivationsDist with
                  colDist := Dist.STAR
                  rowDist := Dist.STAR }] :=
  ⟨rfl,
    embedding_setup_data_star_distribution exEmbLayer exModel
      exEmbLayerAfter exModelAfter rfl⟩

/-- C5: `embedding_layer::setup_data` establishes weight ownership: when
the layer has no weights it constructs a default weights object (normal
initializer with mean zero and standard deviation one, an optimizer from
the model, name `get_name() + "_weights"`) and registers it with the
layer and the model; it raises `LBANN_ERROR` if and only if, after this
step, the number of weights differs from one; and on every normal return
the layer owns exactly one weights object. -/
theorem embedding_setup_data_weight_ownership (l : EmbeddingLayer)
    (m : ModelState) :
    (l.weights = [] →
      embedding_layer.construct_default_weights l m =
        ({ l with weights := [embedding_layer.default_weights l] },
         { m with weights := m.weights ++ [embedding_layer.default_weights l] })) ∧
    (embedding_layer.default_weights l).init =
      some { mean := 0, standard_deviation := 1 } ∧
    (embedding_layer.default_weights l).name = l.name ++ "_weights" ∧
    (embedding_layer.default_weights l).hasOptimizer = true ∧
    ((embedding_layer.setup_data l m).isOk = false ↔
      (embedding_layer.construct_default_weights l m).1.weights.length ≠ 1) ∧
    (embedding_layer.setup_data l m).toOption.map
        (fun p => p.1.weights.length) =
      (embedding_layer.setup_data l m).toOption.map (fun _ => 1) := by
  refine ⟨?_, rfl, rfl, rfl, ?_, ?_⟩
  · intro hw
    simp [embedding_layer.construct_default_weights, hw]
  · by_cases hlen :
      (embedding_layer.construct_default_weights l m).1.weights.length ≠ 1
    · simp [embedding_layer.setup_data, hlen, Except.isOk, Except.toBool]
    · simp [embedding_layer.setup_data, hlen, Except.isOk, Except.toBool]
  · by_cases hlen :
      (embedding_layer.construct_default_weights l m).1.weights.length ≠ 1
    · simp [embedding_layer.setup_data, hlen, Except.toOption]
    · simp [embedding_layer.setup_data, hlen, Except.toOption]
